import Mathlib

/-!
Verification of the autopush-rs routing core and notification-header
validator against their natural-language specification.

The development shallowly embeds two pieces of the `autoendpoint` crate:

* `WebPushRouter::route_notification` (src/autoendpoint/src/routers/webpush.rs)
  together with its helpers (`store_notification`, `remove_node_id`,
  `make_delivered_response`, `make_stored_response`) and the error taxonomy
  of src/autoendpoint/src/server/routers/mod.rs.  The async external calls
  (HTTP delivery, storage) are embedded by passing in a record of their
  outcomes (`WorldOutcomes`); the function additionally returns the trace of
  external operations it performed, so that frame and at-most-once
  properties can be stated.

* `NotificationHeaders::from_request` and the encryption-validation rules
  (src/autoendpoint/src/server/extractors/notification_headers.rs).
-/

set_option autoImplicit false

namespace Autopush

/-! ## Routing data model (webpush.rs, routers/mod.rs) -/

/-- An HTTP response from a connection-server node; only the status code is
inspected by the router. -/
structure Response where
  status : Nat
deriving DecidableEq, Repr

/-- The kind of an `autopush_common` error, as matched by the router's
post-store re-fetch handling: either a message-shaped error
(`ErrorKind::Msg`) or any other kind. -/
inductive ErrorKind where
  | msg (s : String)
  | other
deriving DecidableEq, Repr

/-- `DynamoDbUser`: the subscriber record fields used by the router. -/
structure DynamoDbUser where
  uaid : Nat
  node_id : Option String
  current_month : Option String
  connected_at : Nat
deriving DecidableEq, Repr

/-- `Subscription` binds the user to a registered endpoint; the router only
reads the embedded user. -/
structure Subscription where
  user : DynamoDbUser
deriving DecidableEq, Repr

/-- The notification fields read by the router. -/
structure Notification where
  subscription : Subscription
  message_id : String
  headers_ttl : Int
  data : Option String
deriving DecidableEq, Repr

/-- `RouterError` (routers/mod.rs): database failure while saving, or the
user record vanished between the initial read and the re-read. -/
inductive RouterError where
  | saveDb (e : ErrorKind)
  | userWasDeleted
deriving DecidableEq, Repr

/-- `RouterError::status`: the associated HTTP status code. -/
def RouterError.status : RouterError → Nat
  | RouterError.saveDb _ => 503
  | RouterError.userWasDeleted => 410

/-- `RouterError::errno`: the associated error number. -/
def RouterError.errno : RouterError → Nat
  | RouterError.saveDb _ => 201
  | RouterError.userWasDeleted => 105

/-- A structured field-validation error as produced by the validator derive
(field name, stable code, message). -/
structure FieldError where
  field : String
  code : String
  message : String
deriving DecidableEq, Repr

/-- The `ApiErrorKind` variants reachable from the embedded code: routing
errors, plain database errors, structured validation errors and
invalid-encryption errors. -/
inductive ApiErrorKind where
  | router (e : RouterError)
  | database (e : ErrorKind)
  | validation (errors : List FieldError)
  | invalidEncryption (message : String)
deriving DecidableEq, Repr

/-- `RouterResponse` (routers/mod.rs): status code, response headers,
optional body. -/
structure RouterResponse where
  status : Nat
  headers : List (String × String)
  body : Option String
deriving DecidableEq, Repr

/-- The router's immutable handles: the store's default message partition
(`DynamoStorage::current_message_month`) and the endpoint base URL. -/
structure WebPushRouter where
  current_message_month : String
  endpoint_url : String
deriving DecidableEq, Repr

/-- `WebPushRouter::make_response`: build the response with `Location` and
`TTL` headers (the metrics emission has no effect on the returned value). -/
def make_response (r : WebPushRouter) (n : Notification) (status : Nat) : RouterResponse :=
  { status := status
    headers := [("Location", r.endpoint_url ++ "/m/" ++ n.message_id),
                ("TTL", toString n.headers_ttl)]
    body := none }

/-- `make_delivered_response`: "Direct", HTTP 200. -/
def make_delivered_response (r : WebPushRouter) (n : Notification) : RouterResponse :=
  make_response r n 200

/-- `make_stored_response`: "Stored", HTTP 202 (ACCEPTED). -/
def make_stored_response (r : WebPushRouter) (n : Notification) : RouterResponse :=
  make_response r n 202

/-- The external operations `route_notification` can perform, recorded as a
trace so that ordering and frame properties can be stated. -/
inductive Op where
  | sendNotification (node_id : String)
  | storeMessage (uaid : Nat) (month : String)
  | getUser (uaid : Nat)
  | removeNodeId (uaid : Nat) (node_id : String) (connected_at : Nat)
  | triggerCheck (uaid : Nat) (node_id : String)
deriving DecidableEq, Repr

/-- Outcomes of the external calls, fixed up front: the embedding of the
async environment.  Each field is consulted only if the corresponding call
is reached.  `Except Unit Response` stands for `Result<Response,
reqwest::Error>` (the error payload is never inspected by the router);
`Except ErrorKind _` stands for storage results. -/
structure WorldOutcomes where
  send_result : Except Unit Response
  remove_first : Except ErrorKind Unit
  store_result : Except ErrorKind Unit
  get_user_result : Except ErrorKind DynamoDbUser
  trigger_result : Except Unit Response
  remove_second : Except ErrorKind Unit

/-- The tail of `route_notification` starting at "Save notification, node is
not present or busy": store the message, re-fetch the user, and run the
recheck branch.  `tr` is the trace accumulated by the direct-delivery
attempt. -/
def store_and_recheck (r : WebPushRouter) (w : WorldOutcomes) (n : Notification)
    (tr : List Op) : List Op × Except ApiErrorKind RouterResponse :=
  let user := n.subscription.user
  let month := user.current_month.getD r.current_message_month
  let tr1 := tr ++ [Op.storeMessage user.uaid month]
  match w.store_result with
  | Except.error e => (tr1, Except.error (ApiErrorKind.router (RouterError.saveDb e)))
  | Except.ok _ =>
    let tr2 := tr1 ++ [Op.getUser user.uaid]
    match w.get_user_result with
    | Except.error e =>
      match e with
      | ErrorKind.msg m =>
        if m = "No user record found" then
          (tr2, Except.error (ApiErrorKind.router RouterError.userWasDeleted))
        else
          (tr2, Except.ok (make_stored_response r n))
      | ErrorKind.other => (tr2, Except.ok (make_stored_response r n))
    | Except.ok user2 =>
      match user2.node_id with
      | none => (tr2, Except.ok (make_stored_response r n))
      | some node_id =>
        let tr3 := tr2 ++ [Op.triggerCheck user2.uaid node_id]
        match w.trigger_result with
        | Except.ok response =>
          if response.status = 200 then
            (tr3, Except.ok (make_delivered_response r n))
          else
            (tr3, Except.ok (make_stored_response r n))
        | Except.error _ =>
          let tr4 := tr3 ++ [Op.removeNodeId user2.uaid node_id user2.connected_at]
          match w.remove_second with
          | Except.ok _ => (tr4, Except.ok (make_stored_response r n))
          | Except.error e => (tr4, Except.error (ApiErrorKind.database e))

/-- `WebPushRouter::route_notification`, with the trace of external
operations it performed.  Mirrors webpush.rs lines 28–117: direct-delivery
attempt when a `node_id` is present (clearing the node on outright call
failure, with `?` propagating a failed clear), then store, re-fetch, and
recheck. -/
def route_notification (r : WebPushRouter) (w : WorldOutcomes) (n : Notification) :
    List Op × Except ApiErrorKind RouterResponse :=
  let user := n.subscription.user
  match user.node_id with
  | some node_id =>
    match w.send_result with
    | Except.ok response =>
      if response.status = 200 then
        ([Op.sendNotification node_id], Except.ok (make_delivered_response r n))
      else
        store_and_recheck r w n [Op.sendNotification node_id]
    | Except.error _ =>
      match w.remove_first with
      | Except.ok _ =>
        store_and_recheck r w n
          [Op.sendNotification node_id,
           Op.removeNodeId user.uaid node_id user.connected_at]
      | Except.error e =>
        ([Op.sendNotification node_id,
          Op.removeNodeId user.uaid node_id user.connected_at],
         Except.error (ApiErrorKind.database e))
  | none => store_and_recheck r w n []

/-- Is this operation a message store? -/
def Op.isStore : Op → Bool
  | Op.storeMessage _ _ => true
  | _ => false

/-- Is this operation a node-id removal? -/
def Op.isRemove : Op → Bool
  | Op.removeNodeId _ _ _ => true
  | _ => false

/-- Is this operation a user re-fetch? -/
def Op.isGetUser : Op → Bool
  | Op.getUser _ => true
  | _ => false

/-- Is this operation a notification-check trigger? -/
def Op.isTrigger : Op → Bool
  | Op.triggerCheck _ _ => true
  | _ => false

/-- Number of `removeNodeId` operations performed before the first message
store: the node clears belonging to the initial direct-delivery step. -/
def directRemoveCount (tr : List Op) : Nat :=
  (tr.takeWhile (fun op => ! Op.isStore op)).countP (fun op => Op.isRemove op)

/-- Did the outbound call fail outright (network error)? -/
def callFailed : Except Unit Response → Bool
  | Except.error _ => true
  | Except.ok _ => false

/-! ## Notification headers (notification_headers.rs) -/

/-- Membership in the character class `[0-9A-Za-z\-_]` of the
`VALID_BASE64_URL` regex. -/
def isB64Char (c : Char) : Bool :=
  c.isAlphanum || c = '-' || c = '_'

/-- The `VALID_BASE64_URL` regex `^[0-9A-Za-z\-_]+=*$`: a non-empty run of
URL-safe base64 alphabet characters followed by zero or more `=` padding
characters.  Since `=` is not in the character class, a string matches
exactly when its maximal alphabet prefix is non-empty and everything after
it is `=`. -/
def valid_base64_url (s : String) : Bool :=
  let cs := s.toList
  let body := cs.takeWhile isB64Char
  decide (0 < body.length) && (cs.drop body.length).all (fun c => c = '=')

/-- `MAX_TTL = 60 * 60 * 24 * 60` seconds (60 days). -/
def MAX_TTL : Int := 60 * 60 * 24 * 60

/-- Digit-string to number, as in Rust's integer `FromStr`: at least one
character, all ASCII digits. -/
def parseDigits (cs : List Char) : Option Nat :=
  if cs = [] then none
  else if cs.all Char.isDigit then
    some (cs.foldl (fun acc c => acc * 10 + (c.toNat - 48)) 0)
  else none

/-- Rust's `str::parse::<i64>()`: optional `+`/`-` sign, one or more ASCII
digits, value within the `i64` range; anything else (including overflow)
fails. -/
def parse_i64 (s : String) : Option Int :=
  match s.toList with
  | '+' :: rest =>
    (parseDigits rest).bind fun v =>
      if (v : Int) ≤ 9223372036854775807 then some (v : Int) else none
  | '-' :: rest =>
    (parseDigits rest).bind fun v =>
      if (v : Int) ≤ 9223372036854775808 then some (-(v : Int)) else none
  | cs =>
    (parseDigits cs).bind fun v =>
      if (v : Int) ≤ 9223372036854775807 then some (v : Int) else none

/-- `NotificationHeaders`: the validated header bundle. -/
structure NotificationHeaders where
  ttl : Option Int
  topic : Option String
  content_encoding : Option String
  encryption : Option String
  encryption_key : Option String
  crypto_key : Option String
deriving DecidableEq, Repr

/-- The `#[derive(Validate)]` checks on `NotificationHeaders`: the `ttl`
range rule (min 0, code "114") and the `topic` length (max 32, code "113")
and regex (code "113") rules, collecting the errors per field in
declaration order.  `None` fields are skipped. -/
def NotificationHeaders.validate (h : NotificationHeaders) : List FieldError :=
  (match h.ttl with
   | some t =>
     if t < 0 then [{ field := "ttl", code := "114", message := "TTL must be greater than 0" }]
     else []
   | none => []) ++
  (match h.topic with
   | some s =>
     (if 32 < s.length then
        [{ field := "topic", code := "113",
           message := "Topic must be no greater than 32 characters" }]
      else []) ++
     (if valid_base64_url s then []
      else [{ field := "topic", code := "113",
              message := "Topic must be URL and Filename safe Base64 alphabet" }])
   | none => [])

/-- Split a character list into groups at the delimiters (the delimiters
are dropped; empty groups are kept, as a string split does). -/
def split_groups (delim : Char → Bool) (cs : List Char) : List (List Char) :=
  cs.foldr
    (fun c acc =>
      if delim c then [] :: acc
      else
        match acc with
        | [] => [[c]]
        | g :: gs => (c :: g) :: gs)
    [[]]

/-- Modelled from the spec: `CryptoKeyHeader::parse` lives in
`autoendpoint/src/server/headers/crypto_key.rs`, which is not among the
provided sources.  Per the spec, a header value is "a semicolon- or
comma-delimited list of `key=value` pairs (a small key-value mini-syntax
shared by all three drafts)".  An item is a `key=value` pair when it
contains `=`: the key is everything before the first `=`, the value is
everything after it.  An item without `=` makes the whole header
unparseable. -/
def parse_pair (item : String) : Option (String × String) :=
  let cs := item.toList
  let key := cs.takeWhile (fun c => ! (c = '='))
  match cs.drop key.length with
  | [] => none
  | _ :: value => some (String.mk key, String.mk value)

/-- Modelled from the spec: split the header value on `;` and `,` and parse
every item as a `key=value` pair; fail if any item is malformed. -/
def CryptoKeyHeader.parse (s : String) : Option (List (String × String)) :=
  (split_groups (fun c => c = ';' || c = ',') s.toList).foldr
    (fun item acc =>
      match parse_pair (String.mk item), acc with
      | some p, some l => some (p :: l)
      | _, _ => none)
    (some [])

/-- Modelled from the spec: `CryptoKeyHeader::get_by_key` returns the value
of the first pair carrying the given key. -/
def get_by_key (pairs : List (String × String)) (key : String) : Option String :=
  (pairs.find? (fun p => p.1 == key)).map Prod.snd

/-- `assert_base64_item_exists`: the header must be present, parse as a
crypto-key header, contain the given key, and the key's value must match
the URL-safe base64 regex. -/
def assert_base64_item_exists (header_name : String) (header : Option String)
    (key : String) : Except ApiErrorKind Unit :=
  match header with
  | none => Except.error (ApiErrorKind.invalidEncryption ("Missing " ++ header_name ++ " header"))
  | some h =>
    match CryptoKeyHeader.parse h with
    | none => Except.error (ApiErrorKind.invalidEncryption ("Invalid " ++ header_name ++ " header"))
    | some header_data =>
      match get_by_key header_data key with
      | none =>
        Except.error (ApiErrorKind.invalidEncryption
          ("Missing " ++ key ++ " value in " ++ header_name ++ " header"))
      | some salt =>
        if valid_base64_url salt then Except.ok ()
        else
          Except.error (ApiErrorKind.invalidEncryption
            ("Invalid " ++ key ++ " value in " ++ header_name ++ " header"))

/-- `assertNotExists`: an absent header is fine; a present header must
parse and must not contain the given key. -/
def assertNotExists (header_name : String) (header : Option String)
    (key : String) : Except ApiErrorKind Unit :=
  match header with
  | none => Except.ok ()
  | some h =>
    match CryptoKeyHeader.parse h with
    | none => Except.error (ApiErrorKind.invalidEncryption ("Invalid " ++ header_name ++ " header"))
    | some header_data =>
      if (get_by_key header_data key).isSome then
        Except.error (ApiErrorKind.invalidEncryption
          ("Do not include " ++ key ++ " header in " ++ header_name ++ " header"))
      else Except.ok ()

/-- `validate_encryption_01_rules` (draft 01, `aesgcm128`); the `?` early
returns are explicit matches. -/
def NotificationHeaders.validate_encryption_01_rules (h : NotificationHeaders) :
    Except ApiErrorKind Unit :=
  match assert_base64_item_exists "Encryption" h.encryption "salt" with
  | Except.error e => Except.error e
  | Except.ok _ =>
    match assert_base64_item_exists "Encryption-Key" h.encryption_key "dh" with
    | Except.error e => Except.error e
    | Except.ok _ =>
      match assertNotExists "aesgcm128 Crypto-Key" h.crypto_key "dh" with
      | Except.error e => Except.error e
      | Except.ok _ => Except.ok ()

/-- `validate_encryption_04_rules` (draft 04, `aesgcm`): require
`Encryption`/`salt`; reject any present `Encryption-Key`; if `Crypto-Key`
is present it must contain a valid `dh`. -/
def NotificationHeaders.validate_encryption_04_rules (h : NotificationHeaders) :
    Except ApiErrorKind Unit :=
  match assert_base64_item_exists "Encryption" h.encryption "salt" with
  | Except.error e => Except.error e
  | Except.ok _ =>
    if h.encryption_key.isSome then
      Except.error (ApiErrorKind.invalidEncryption
        "Encryption-Key header is not valid for webpush draft 02 or later")
    else if h.crypto_key.isSome then
      match assert_base64_item_exists "Crypto-Key" h.crypto_key "dh" with
      | Except.error e => Except.error e
      | Except.ok _ => Except.ok ()
    else Except.ok ()

/-- `validate_encryption_06_rules` (draft 06, `aes128gcm`): `Encryption`
must not contain `salt`, `Crypto-Key` must not contain `dh`. -/
def NotificationHeaders.validate_encryption_06_rules (h : NotificationHeaders) :
    Except ApiErrorKind Unit :=
  match assertNotExists "aes128gcm Encryption" h.encryption "salt" with
  | Except.error e => Except.error e
  | Except.ok _ =>
    match assertNotExists "aes128gcm Crypto-Key" h.crypto_key "dh" with
    | Except.error e => Except.error e
    | Except.ok _ => Except.ok ()

/-- `validate_encryption`: dispatch on `content_encoding`. -/
def NotificationHeaders.validate_encryption (h : NotificationHeaders) :
    Except ApiErrorKind Unit :=
  match h.content_encoding with
  | none => Except.error (ApiErrorKind.invalidEncryption "Missing Content-Encoding header")
  | some content_encoding =>
    if content_encoding = "aesgcm128" then h.validate_encryption_01_rules
    else if content_encoding = "aesgcm" then h.validate_encryption_04_rules
    else if content_encoding = "aes128gcm" then h.validate_encryption_06_rules
    else Except.error (ApiErrorKind.invalidEncryption "Unknown Content-Encoding header")

/-- The raw header values of a request, as returned by
`get_header`/`get_owned_header`: `none` when the header is absent. -/
structure RawHeaders where
  ttl : Option String
  topic : Option String
  content_encoding : Option String
  encryption : Option String
  encryption_key : Option String
  crypto_key : Option String
deriving DecidableEq, Repr

/-- `NotificationHeaders::from_request`: parse the TTL (unparsable values
become `None`), clamp it to `MAX_TTL`, collect the remaining raw headers,
validate encryption when the request carries a payload body, then run the
field validations. -/
def NotificationHeaders.from_request (req : RawHeaders) (has_data : Bool) :
    Except ApiErrorKind NotificationHeaders :=
  let ttl := (req.ttl.bind parse_i64).map (fun t => min t MAX_TTL)
  let headers : NotificationHeaders :=
    { ttl := ttl, topic := req.topic, content_encoding := req.content_encoding,
      encryption := req.encryption, encryption_key := req.encryption_key,
      crypto_key := req.crypto_key }
  match (if has_data then headers.validate_encryption else Except.ok ()) with
  | Except.error e => Except.error e
  | Except.ok _ =>
    match headers.validate with
    | [] => Except.ok headers
    | e :: rest => Except.error (ApiErrorKind.validation (e :: rest))

/-- Does the header string parse and carry the given key with a value that
matches the URL-safe base64 regex? -/
def contains_valid_key (s : String) (key : String) : Bool :=
  match (CryptoKeyHeader.parse s).bind (fun d => get_by_key d key) with
  | some v => valid_base64_url v
  | none => false

/-- Does the header string parse and carry the given key at all? -/
def contains_key (s : String) (key : String) : Bool :=
  ((CryptoKeyHeader.parse s).bind (fun d => get_by_key d key)).isSome

/-- The result webpush.rs computes for a failed post-store re-fetch: a
message-shaped error reading exactly "No user record found" becomes
`UserWasDeleted`; everything else is swallowed into the "Stored"
response. -/
def refetch_error_result (r : WebPushRouter) (n : Notification) (e : ErrorKind) :
    Except ApiErrorKind RouterResponse :=
  match e with
  | ErrorKind.msg m =>
    if m = "No user record found"
    then Except.error (ApiErrorKind.router RouterError.userWasDeleted)
    else Except.ok (make_stored_response r n)
  | ErrorKind.other => Except.ok (make_stored_response r n)

/-- A request carrying only a TTL header. -/
def ttl_request (s : String) : RawHeaders :=
  { ttl := some s, topic := none, content_encoding := none,
    encryption := none, encryption_key := none, crypto_key := none }

/-- A request carrying only a Topic header. -/
def topic_request (s : String) : RawHeaders :=
  { ttl := none, topic := some s, content_encoding := none,
    encryption := none, encryption_key := none, crypto_key := none }

/-- The claim's topic-rejection condition, following the claim's words and
not the code: the topic is rejected exactly when it is longer than 32
characters or contains a character outside `[0-9A-Za-z\-_=]` with `=`
allowed only as trailing padding (i.e. the string is not an alphabet run
followed by `=` padding). -/
def spec_topic_reject (s : String) : Bool :=
  decide (32 < s.length) ||
    ! ((s.toList.drop ((s.toList.takeWhile isB64Char).length)).all (fun c => c = '='))

/-- The claim's acceptance condition for `aesgcm`, following the claim's
words: the `Encryption` header is present with a valid `salt` key, the
`Encryption-Key` header is absent entirely, and `Crypto-Key`, if present,
contains a valid `dh` key. -/
def spec_aesgcm_accepts (h : NotificationHeaders) : Bool :=
  (match h.encryption with
   | some e => contains_valid_key e "salt"
   | none => false) &&
  h.encryption_key.isNone &&
  (match h.crypto_key with
   | some c => contains_valid_key c "dh"
   | none => true)

/-! ## Helper lemmas -/

theorem takeWhile_append_of_all {α : Type} (p : α → Bool) (l1 l2 : List α)
    (h : l1.all p = true) : (l1 ++ l2).takeWhile p = l1 ++ l2.takeWhile p := by
  induction l1 with
  | nil => simp
  | cons a t ih =>
    simp only [List.all_cons, Bool.and_eq_true] at h
    simp [List.takeWhile_cons, h.1, ih h.2]

/-- Whatever branch runs, the trace of `store_and_recheck` is the incoming
trace, then the store, then a store-free tail. -/
theorem store_and_recheck_trace_shape (r : WebPushRouter) (w : WorldOutcomes)
    (n : Notification) (tr : List Op) :
    ∃ rest : List Op,
      (store_and_recheck r w n tr).1 =
        tr ++ Op.storeMessage n.subscription.user.uaid
          (n.subscription.user.current_month.getD r.current_message_month) :: rest ∧
      rest.all (fun op => ! Op.isStore op) = true := by
  unfold store_and_recheck
  cases w.store_result with
  | error e => exact ⟨[], by simp⟩
  | ok _ =>
    cases w.get_user_result with
    | error e =>
      cases e with
      | msg m =>
        by_cases hm : m = "No user record found" <;>
          exact ⟨[Op.getUser n.subscription.user.uaid], by simp [hm, Op.isStore]⟩
      | other => exact ⟨[Op.getUser n.subscription.user.uaid], by simp [Op.isStore]⟩
    | ok user2 =>
      cases hn2 : user2.node_id with
      | none => exact ⟨[Op.getUser n.subscription.user.uaid], by simp [hn2, Op.isStore]⟩
      | some node_id =>
        cases w.trigger_result with
        | ok response =>
          by_cases h200 : response.status = 200 <;>
            exact ⟨[Op.getUser n.subscription.user.uaid, Op.triggerCheck user2.uaid node_id],
              by simp [hn2, h200, Op.isStore]⟩
        | error _ =>
          cases w.remove_second with
          | ok _ =>
            exact ⟨[Op.getUser n.subscription.user.uaid, Op.triggerCheck user2.uaid node_id,
                    Op.removeNodeId user2.uaid node_id user2.connected_at],
              by simp [hn2, Op.isStore]⟩
          | error e =>
            exact ⟨[Op.getUser n.subscription.user.uaid, Op.triggerCheck user2.uaid node_id,
                    Op.removeNodeId user2.uaid node_id user2.connected_at],
              by simp [hn2, Op.isStore]⟩

/-- The direct-step removes of a trace that goes through the store are
exactly the removes accumulated before the store. -/
theorem directRemoveCount_store_and_recheck (r : WebPushRouter) (w : WorldOutcomes)
    (n : Notification) (tr : List Op) (h : tr.all (fun op => ! Op.isStore op) = true) :
    directRemoveCount (store_and_recheck r w n tr).1 =
      tr.countP (fun op => Op.isRemove op) := by
  obtain ⟨rest, hr, -⟩ := store_and_recheck_trace_shape r w n tr
  rw [directRemoveCount, hr, takeWhile_append_of_all _ _ _ h]
  simp [List.takeWhile_cons, Op.isStore]

/-- `store_and_recheck` stores exactly one more message than the incoming
trace already contains. -/
theorem storeCount_store_and_recheck (r : WebPushRouter) (w : WorldOutcomes)
    (n : Notification) (tr : List Op) :
    (store_and_recheck r w n tr).1.countP (fun op => Op.isStore op) =
      tr.countP (fun op => Op.isStore op) + 1 := by
  obtain ⟨rest, hr, hall⟩ := store_and_recheck_trace_shape r w n tr
  have hrest : rest.countP (fun op => Op.isStore op) = 0 := by
    rw [List.countP_eq_zero]
    intro a ha
    have := List.all_eq_true.mp hall a ha
    simpa using this
  rw [hr, List.countP_append, List.countP_cons, hrest]
  simp [Op.isStore]

/-- After a successful store, a failed re-fetch determines the result by
the error's kind and message alone. -/
theorem store_and_recheck_refetch_error (r : WebPushRouter) (w : WorldOutcomes)
    (n : Notification) (tr : List Op) (e : ErrorKind)
    (hst : w.store_result = Except.ok ())
    (hg : w.get_user_result = Except.error e) :
    (store_and_recheck r w n tr).2 = refetch_error_result r n e := by
  cases e with
  | msg m =>
    by_cases hm : m = "No user record found" <;>
      simp [store_and_recheck, refetch_error_result, hst, hg, hm]
  | other => simp [store_and_recheck, refetch_error_result, hst, hg]

/-- If the post-store re-fetch happened (a `getUser` operation is in the
trace) and it failed, then the store had succeeded and the call's result is
determined by the error. -/
theorem route_refetch_error (r : WebPushRouter) (w : WorldOutcomes)
    (n : Notification) (e : ErrorKind)
    (hreach : (route_notification r w n).1.any (fun op => Op.isGetUser op) = true)
    (hg : w.get_user_result = Except.error e) :
    (route_notification r w n).2 = refetch_error_result r n e := by
  cases hn : n.subscription.user.node_id with
  | none =>
    have hroute : route_notification r w n = store_and_recheck r w n [] := by
      simp [route_notification, hn]
    cases hst : w.store_result with
    | error e1 =>
      exfalso
      rw [hroute] at hreach
      revert hreach
      simp [store_and_recheck, hst, hg, Op.isGetUser]
    | ok u =>
      cases u
      rw [hroute]
      exact store_and_recheck_refetch_error r w n [] e hst hg
  | some nid =>
    cases hs : w.send_result with
    | ok resp =>
      by_cases h200 : resp.status = 200
      · exfalso
        revert hreach
        simp [route_notification, hn, hs, h200, Op.isGetUser]
      · have hroute : route_notification r w n =
            store_and_recheck r w n [Op.sendNotification nid] := by
          simp [route_notification, hn, hs, h200]
        cases hst : w.store_result with
        | error e1 =>
          exfalso
          rw [hroute] at hreach
          revert hreach
          simp [store_and_recheck, hst, hg, Op.isGetUser]
        | ok u =>
          cases u
          rw [hroute]
          exact store_and_recheck_refetch_error r w n _ e hst hg
    | error u =>
      cases hr1 : w.remove_first with
      | ok v =>
        have hroute : route_notification r w n =
            store_and_recheck r w n
              [Op.sendNotification nid,
               Op.removeNodeId n.subscription.user.uaid nid n.subscription.user.connected_at] := by
          simp [route_notification, hn, hs, hr1]
        cases hst : w.store_result with
        | error e1 =>
          exfalso
          rw [hroute] at hreach
          revert hreach
          simp [store_and_recheck, hst, hg, Op.isGetUser]
        | ok u2 =>
          cases u2
          rw [hroute]
          exact store_and_recheck_refetch_error r w n _ e hst hg
      | error e1 =>
        exfalso
        revert hreach
        simp [route_notification, hn, hs, hr1, Op.isGetUser]

/-- If the recheck call happened (a `triggerCheck` operation is in the
trace), the call went through `store_and_recheck` and the store had
succeeded. -/
theorem route_recheck_decomp (r : WebPushRouter) (w : WorldOutcomes) (n : Notification)
    (hreach : (route_notification r w n).1.any (fun op => Op.isTrigger op) = true) :
    ∃ tr, route_notification r w n = store_and_recheck r w n tr ∧
      w.store_result = Except.ok () := by
  cases hn : n.subscription.user.node_id with
  | none =>
    have hroute : route_notification r w n = store_and_recheck r w n [] := by
      simp [route_notification, hn]
    cases hst : w.store_result with
    | error e1 =>
      exfalso
      rw [hroute] at hreach
      revert hreach
      simp [store_and_recheck, hst, Op.isTrigger]
    | ok u => cases u; exact ⟨[], hroute, rfl⟩
  | some nid =>
    cases hs : w.send_result with
    | ok resp =>
      by_cases h200 : resp.status = 200
      · exfalso
        revert hreach
        simp [route_notification, hn, hs, h200, Op.isTrigger]
      · have hroute : route_notification r w n =
            store_and_recheck r w n [Op.sendNotification nid] := by
          simp [route_notification, hn, hs, h200]
        cases hst : w.store_result with
        | error e1 =>
          exfalso
          rw [hroute] at hreach
          revert hreach
          simp [store_and_recheck, hst, Op.isTrigger]
        | ok u => cases u; exact ⟨_, hroute, rfl⟩
    | error u =>
      cases hr1 : w.remove_first with
      | ok v =>
        have hroute : route_notification r w n =
            store_and_recheck r w n
              [Op.sendNotification nid,
               Op.removeNodeId n.subscription.user.uaid nid n.subscription.user.connected_at] := by
          simp [route_notification, hn, hs, hr1]
        cases hst : w.store_result with
        | error e1 =>
          exfalso
          rw [hroute] at hreach
          revert hreach
          simp [store_and_recheck, hst, Op.isTrigger]
        | ok u2 => cases u2; exact ⟨_, hroute, rfl⟩
      | error e1 =>
        exfalso
        revert hreach
        simp [route_notification, hn, hs, hr1, Op.isTrigger]

/-! ## Claims about the routing algorithm -/

/-- C1: when the post-store re-fetch of the user fails, a "no such user"
failure yields `RouterError::UserWasDeleted` (HTTP 410 Gone), and any other
re-fetch failure is swallowed: the call returns the "Stored" response
(HTTP 202). -/
theorem refetch_failure_handling (r : WebPushRouter) (w : WorldOutcomes)
    (n : Notification) (e : ErrorKind)
    (hreach : (route_notification r w n).1.any (fun op => Op.isGetUser op) = true)
    (hg : w.get_user_result = Except.error e) :
    (e = ErrorKind.msg "No user record found" →
      (route_notification r w n).2 =
        Except.error (ApiErrorKind.router RouterError.userWasDeleted) ∧
      RouterError.userWasDeleted.status = 410) ∧
    (e ≠ ErrorKind.msg "No user record found" →
      (route_notification r w n).2 = Except.ok (make_stored_response r n) ∧
      (make_stored_response r n).status = 202) := by
  have h := route_refetch_error r w n e hreach hg
  constructor
  · rintro rfl
    rw [h]
    exact ⟨by simp [refetch_error_result], rfl⟩
  · intro hne
    refine ⟨?_, rfl⟩
    rw [h]
    cases e with
    | msg m =>
      have hm : m ≠ "No user record found" := by
        rintro rfl; exact hne rfl
      simp [refetch_error_result, hm]
    | other => simp [refetch_error_result]

/-- C10: the post-store re-fetch maps a failure to `UserWasDeleted` exactly
when the error is message-shaped with text `"No user record found"`; a
message-shaped error with any other text, or a non-message error, yields
the "Stored" response. -/
theorem refetch_error_exact_message (r : WebPushRouter) (w : WorldOutcomes)
    (n : Notification) (e : ErrorKind)
    (hreach : (route_notification r w n).1.any (fun op => Op.isGetUser op) = true)
    (hg : w.get_user_result = Except.error e) :
    ((route_notification r w n).2 =
        Except.error (ApiErrorKind.router RouterError.userWasDeleted) ↔
      e = ErrorKind.msg "No user record found") ∧
    (∀ m, e = ErrorKind.msg m → m ≠ "No user record found" →
      (route_notification r w n).2 = Except.ok (make_stored_response r n)) ∧
    (e = ErrorKind.other →
      (route_notification r w n).2 = Except.ok (make_stored_response r n)) := by
  have h := route_refetch_error r w n e hreach hg
  refine ⟨⟨?_, ?_⟩, ?_, ?_⟩
  · intro hres
    rw [h] at hres
    cases e with
    | msg m =>
      by_cases hm : m = "No user record found"
      · rw [hm]
      · simp [refetch_error_result, hm] at hres
    | other => simp [refetch_error_result] at hres
  · rintro rfl
    rw [h]
    simp [refetch_error_result]
  · rintro m rfl hm
    rw [h]
    simp [refetch_error_result, hm]
  · rintro rfl
    rw [h]
    simp [refetch_error_result]

/-- C3: in the post-store recheck branch, a 200 recheck yields "Direct",
any other status yields "Stored", and an outright recheck failure first
clears the re-fetched node id; a successful clear yields "Stored" while a
failed clear propagates the database error. -/
theorem recheck_branch_handling (r : WebPushRouter) (w : WorldOutcomes)
    (n : Notification) (u2 : DynamoDbUser) (n2 : String)
    (hg : w.get_user_result = Except.ok u2)
    (hn2 : u2.node_id = some n2)
    (hreach : (route_notification r w n).1.any (fun op => Op.isTrigger op) = true) :
    (∀ resp, w.trigger_result = Except.ok resp →
      (resp.status = 200 →
        (route_notification r w n).2 = Except.ok (make_delivered_response r n)) ∧
      (resp.status ≠ 200 →
        (route_notification r w n).2 = Except.ok (make_stored_response r n))) ∧
    (∀ u, w.trigger_result = Except.error u →
      Op.removeNodeId u2.uaid n2 u2.connected_at ∈ (route_notification r w n).1 ∧
      (w.remove_second = Except.ok () →
        (route_notification r w n).2 = Except.ok (make_stored_response r n)) ∧
      (∀ e, w.remove_second = Except.error e →
        (route_notification r w n).2 = Except.error (ApiErrorKind.database e))) := by
  obtain ⟨tr, hroute, hst⟩ := route_recheck_decomp r w n hreach
  rw [hroute]
  constructor
  · intro resp ht
    constructor <;> intro h200 <;>
      simp [store_and_recheck, hst, hg, hn2, ht, h200]
  · intro u ht
    refine ⟨?_, ?_, ?_⟩
    · cases hr2 : w.remove_second <;>
        simp [store_and_recheck, hst, hg, hn2, ht, hr2]
    · intro h2
      simp [store_and_recheck, hst, hg, hn2, ht, h2]
    · intro e h2
      simp [store_and_recheck, hst, hg, hn2, ht, h2]

/-- C4: if the user has a node id and the direct delivery call returns 200,
the call returns the "Direct" response (HTTP 200) and performs no storage
operation at all: its trace is exactly the single delivery call. -/
theorem direct_delivery_success (r : WebPushRouter) (w : WorldOutcomes)
    (n : Notification) (nid : String) (resp : Response)
    (hn : n.subscription.user.node_id = some nid)
    (hs : w.send_result = Except.ok resp)
    (h200 : resp.status = 200) :
    route_notification r w n =
      ([Op.sendNotification nid], Except.ok (make_delivered_response r n)) ∧
    (make_delivered_response r n).status = 200 ∧
    (route_notification r w n).1.any
      (fun op => Op.isStore op || Op.isRemove op || Op.isGetUser op) = false := by
  have hroute : route_notification r w n =
      ([Op.sendNotification nid], Except.ok (make_delivered_response r n)) := by
    simp [route_notification, hn, hs, h200]
  refine ⟨hroute, rfl, ?_⟩
  rw [hroute]
  simp [Op.isStore, Op.isRemove, Op.isGetUser]

/-- C5: on every execution path, the notification is stored at most once. -/
theorem store_at_most_once (r : WebPushRouter) (w : WorldOutcomes) (n : Notification) :
    (route_notification r w n).1.countP (fun op => Op.isStore op) ≤ 1 := by
  cases hn : n.subscription.user.node_id with
  | none =>
    have hroute : route_notification r w n = store_and_recheck r w n [] := by
      simp [route_notification, hn]
    rw [hroute, storeCount_store_and_recheck]
    simp
  | some nid =>
    cases hs : w.send_result with
    | ok resp =>
      by_cases h200 : resp.status = 200
      · simp [route_notification, hn, hs, h200, Op.isStore]
      · have hroute : route_notification r w n =
            store_and_recheck r w n [Op.sendNotification nid] := by
          simp [route_notification, hn, hs, h200]
        rw [hroute, storeCount_store_and_recheck]
        simp [Op.isStore]
    | error u =>
      cases hr1 : w.remove_first with
      | ok v =>
        have hroute : route_notification r w n =
            store_and_recheck r w n
              [Op.sendNotification nid,
               Op.removeNodeId n.subscription.user.uaid nid n.subscription.user.connected_at] := by
          simp [route_notification, hn, hs, hr1]
        rw [hroute, storeCount_store_and_recheck]
        simp [Op.isStore]
      | error e =>
        simp [route_notification, hn, hs, hr1, Op.isStore]

/-- C2 (amended): in the initial direct-delivery step, `remove_node_id` is
invoked exactly when the delivery call fails outright (never on a non-200
success), and then exactly once, before any store, with the original user's
uaid, node id and `connected_at`; if the clear succeeds the routing
continues to the store step (exactly one store happens), and the eventual
response is "Stored" when the post-store re-fetch then returns a user with
no node id. -/
theorem initial_remove_node_id (r : WebPushRouter) (w : WorldOutcomes) (n : Notification) :
    (directRemoveCount (route_notification r w n).1 =
      if n.subscription.user.node_id.isSome && callFailed w.send_result then 1 else 0) ∧
    (∀ nid, n.subscription.user.node_id = some nid → callFailed w.send_result = true →
      (route_notification r w n).1.take 2 =
        [Op.sendNotification nid,
         Op.removeNodeId n.subscription.user.uaid nid n.subscription.user.connected_at] ∧
      (w.remove_first = Except.ok () →
        (route_notification r w n).1.countP (fun op => Op.isStore op) = 1) ∧
      (w.remove_first = Except.ok () → w.store_result = Except.ok () →
        ∀ u2, w.get_user_result = Except.ok u2 → u2.node_id = none →
          (route_notification r w n).2 = Except.ok (make_stored_response r n) ∧
          (make_stored_response r n).status = 202)) := by
  cases hn : n.subscription.user.node_id with
  | none =>
    have hroute : route_notification r w n = store_and_recheck r w n [] := by
      simp [route_notification, hn]
    refine ⟨?_, ?_⟩
    · rw [hroute, directRemoveCount_store_and_recheck r w n [] (by simp)]
      simp
    · intro nid hnid hcf2
      simp at hnid
  | some nid0 =>
    cases hs : w.send_result with
    | ok resp =>
      by_cases h200 : resp.status = 200
      · have hroute : route_notification r w n =
            ([Op.sendNotification nid0], Except.ok (make_delivered_response r n)) := by
          simp [route_notification, hn, hs, h200]
        refine ⟨?_, ?_⟩
        · rw [hroute]
          simp [callFailed, directRemoveCount, Op.isStore, Op.isRemove]
        · intro nid hnid hcf2
          simp [callFailed] at hcf2
      · have hroute : route_notification r w n =
            store_and_recheck r w n [Op.sendNotification nid0] := by
          simp [route_notification, hn, hs, h200]
        refine ⟨?_, ?_⟩
        · rw [hroute, directRemoveCount_store_and_recheck r w n _ (by simp [Op.isStore])]
          simp [callFailed, Op.isRemove]
        · intro nid hnid hcf2
          simp [callFailed] at hcf2
    | error u =>
      cases hr1 : w.remove_first with
      | ok v =>
        cases v
        have hroute : route_notification r w n =
            store_and_recheck r w n
              [Op.sendNotification nid0,
               Op.removeNodeId n.subscription.user.uaid nid0 n.subscription.user.connected_at] := by
          simp [route_notification, hn, hs, hr1]
        refine ⟨?_, ?_⟩
        · rw [hroute, directRemoveCount_store_and_recheck r w n _ (by simp [Op.isStore])]
          simp [callFailed, Op.isRemove, Op.isStore]
        · intro nid hnid hcf2
          have hninj : nid0 = nid := Option.some.inj hnid
          subst hninj
          refine ⟨?_, ?_, ?_⟩
          · obtain ⟨rest, hsh, -⟩ := store_and_recheck_trace_shape r w n
              [Op.sendNotification nid0,
               Op.removeNodeId n.subscription.user.uaid nid0 n.subscription.user.connected_at]
            rw [hroute, hsh]
            simp
          · intro h1
            rw [hroute, storeCount_store_and_recheck]
            simp [Op.isStore]
          · intro h1 hst u2 hg hn2
            refine ⟨?_, rfl⟩
            rw [hroute]
            simp [store_and_recheck, hst, hg, hn2]
      | error e1 =>
        have hroute : route_notification r w n =
            ([Op.sendNotification nid0,
              Op.removeNodeId n.subscription.user.uaid nid0 n.subscription.user.connected_at],
             Except.error (ApiErrorKind.database e1)) := by
          simp [route_notification, hn, hs, hr1]
        refine ⟨?_, ?_⟩
        · rw [hroute]
          simp [callFailed, directRemoveCount, Op.isStore, Op.isRemove]
        · intro nid hnid hcf2
          have hninj : nid0 = nid := Option.some.inj hnid
          subst hninj
          refine ⟨?_, ?_, ?_⟩
          · rw [hroute]
            simp
          · intro h1
            simp at h1
          · intro h1 hst u2 hg hn2
            simp at h1

/-- C2 counterexample: with a stale node, an outright delivery failure, a
successful clear and store, and a re-fetched user whose new node answers
200 to the recheck, the clear is invoked in the direct-delivery step and
yet the call's response is "Direct" (HTTP 200), not the "Stored" response
the claim promises. -/
theorem initial_remove_counterexample :
    directRemoveCount
      (route_notification ⟨"m0", "http://ep"⟩
        ⟨Except.error (), Except.ok (), Except.ok (),
         Except.ok ⟨1, some "nodeB", none, 9⟩, Except.ok ⟨200⟩, Except.ok ()⟩
        ⟨⟨⟨1, some "nodeA", none, 5⟩⟩, "mid1", 0, none⟩).1 = 1 ∧
    (route_notification ⟨"m0", "http://ep"⟩
        ⟨Except.error (), Except.ok (), Except.ok (),
         Except.ok ⟨1, some "nodeB", none, 9⟩, Except.ok ⟨200⟩, Except.ok ()⟩
        ⟨⟨⟨1, some "nodeA", none, 5⟩⟩, "mid1", 0, none⟩).2 =
      Except.ok (make_delivered_response ⟨"m0", "http://ep"⟩
        ⟨⟨⟨1, some "nodeA", none, 5⟩⟩, "mid1", 0, none⟩) ∧
    (make_delivered_response ⟨"m0", "http://ep"⟩
        ⟨⟨⟨1, some "nodeA", none, 5⟩⟩, "mid1", 0, none⟩).status = 200 ∧
    (make_stored_response ⟨"m0", "http://ep"⟩
        ⟨⟨⟨1, some "nodeA", none, 5⟩⟩, "mid1", 0, none⟩).status = 202 ∧
    (route_notification ⟨"m0", "http://ep"⟩
        ⟨Except.error (), Except.ok (), Except.ok (),
         Except.ok ⟨1, some "nodeB", none, 9⟩, Except.ok ⟨200⟩, Except.ok ()⟩
        ⟨⟨⟨1, some "nodeA", none, 5⟩⟩, "mid1", 0, none⟩).2 ≠
      Except.ok (make_stored_response ⟨"m0", "http://ep"⟩
        ⟨⟨⟨1, some "nodeA", none, 5⟩⟩, "mid1", 0, none⟩) := by
  refine ⟨rfl, rfl, rfl, rfl, ?_⟩
  simp [route_notification, store_and_recheck, make_delivered_response,
    make_stored_response, make_response]

/-- Witness for C2 at a concrete input: delivery fails outright, the clear
and store succeed, and the re-fetched user has no node, so the theorem
yields the "Stored" response. -/
theorem initial_remove_node_id_witness :
    (route_notification ⟨"m0", "http://ep"⟩
      ⟨Except.error (), Except.ok (), Except.ok (), Except.ok ⟨2, none, none, 9⟩,
       Except.ok ⟨200⟩, Except.ok ()⟩
      ⟨⟨⟨2, some "nodeA", none, 5⟩⟩, "mid2", 0, none⟩).2 =
      Except.ok (make_stored_response ⟨"m0", "http://ep"⟩
        ⟨⟨⟨2, some "nodeA", none, 5⟩⟩, "mid2", 0, none⟩) ∧
    (make_stored_response ⟨"m0", "http://ep"⟩
        ⟨⟨⟨2, some "nodeA", none, 5⟩⟩, "mid2", 0, none⟩).status = 202 := by
  have h := initial_remove_node_id ⟨"m0", "http://ep"⟩
    ⟨Except.error (), Except.ok (), Except.ok (), Except.ok ⟨2, none, none, 9⟩,
     Except.ok ⟨200⟩, Except.ok ()⟩
    ⟨⟨⟨2, some "nodeA", none, 5⟩⟩, "mid2", 0, none⟩
  exact (h.2 "nodeA" rfl rfl).2.2 rfl rfl ⟨2, none, none, 9⟩ rfl rfl

/-- Witness for C1 at a concrete input: the re-fetch fails with the exact
"No user record found" message and the call returns `UserWasDeleted`. -/
theorem refetch_failure_handling_witness :
    (route_notification ⟨"m0", "http://ep"⟩
      ⟨Except.ok ⟨503⟩, Except.ok (), Except.ok (),
       Except.error (ErrorKind.msg "No user record found"), Except.ok ⟨200⟩, Except.ok ()⟩
      ⟨⟨⟨3, none, none, 5⟩⟩, "mid3", 0, none⟩).2 =
      Except.error (ApiErrorKind.router RouterError.userWasDeleted) ∧
    RouterError.userWasDeleted.status = 410 := by
  have h := refetch_failure_handling ⟨"m0", "http://ep"⟩
    ⟨Except.ok ⟨503⟩, Except.ok (), Except.ok (),
     Except.error (ErrorKind.msg "No user record found"), Except.ok ⟨200⟩, Except.ok ()⟩
    ⟨⟨⟨3, none, none, 5⟩⟩, "mid3", 0, none⟩ (ErrorKind.msg "No user record found")
    (by decide) rfl
  exact h.1 rfl

/-- Witness for C10 at a concrete input: a message-shaped re-fetch error
with different wording yields the "Stored" response. -/
theorem refetch_error_exact_message_witness :
    (route_notification ⟨"m0", "http://ep"⟩
      ⟨Except.ok ⟨503⟩, Except.ok (), Except.ok (),
       Except.error (ErrorKind.msg "user not found"), Except.ok ⟨200⟩, Except.ok ()⟩
      ⟨⟨⟨4, none, none, 5⟩⟩, "mid4", 0, none⟩).2 =
      Except.ok (make_stored_response ⟨"m0", "http://ep"⟩
        ⟨⟨⟨4, none, none, 5⟩⟩, "mid4", 0, none⟩) := by
  have h := refetch_error_exact_message ⟨"m0", "http://ep"⟩
    ⟨Except.ok ⟨503⟩, Except.ok (), Except.ok (),
     Except.error (ErrorKind.msg "user not found"), Except.ok ⟨200⟩, Except.ok ()⟩
    ⟨⟨⟨4, none, none, 5⟩⟩, "mid4", 0, none⟩ (ErrorKind.msg "user not found")
    (by decide) rfl
  exact h.2.1 "user not found" rfl (by decide)

/-- Witness for C3 at a concrete input: the re-fetched user's node answers
200 to the recheck and the call returns the "Direct" response. -/
theorem recheck_branch_handling_witness :
    (route_notification ⟨"m0", "http://ep"⟩
      ⟨Except.ok ⟨503⟩, Except.ok (), Except.ok (),
       Except.ok ⟨5, some "nodeC", none, 9⟩, Except.ok ⟨200⟩, Except.ok ()⟩
      ⟨⟨⟨5, none, none, 5⟩⟩, "mid5", 0, none⟩).2 =
      Except.ok (make_delivered_response ⟨"m0", "http://ep"⟩
        ⟨⟨⟨5, none, none, 5⟩⟩, "mid5", 0, none⟩) := by
  have h := recheck_branch_handling ⟨"m0", "http://ep"⟩
    ⟨Except.ok ⟨503⟩, Except.ok (), Except.ok (),
     Except.ok ⟨5, some "nodeC", none, 9⟩, Except.ok ⟨200⟩, Except.ok ()⟩
    ⟨⟨⟨5, none, none, 5⟩⟩, "mid5", 0, none⟩ ⟨5, some "nodeC", none, 9⟩ "nodeC"
    rfl rfl (by decide)
  exact (h.1 ⟨200⟩ rfl).1 rfl

/-- Witness for C4 at a concrete input: the user's node accepts the direct
delivery with 200 and nothing else happens. -/
theorem direct_delivery_success_witness :
    route_notification ⟨"m0", "http://ep"⟩
      ⟨Except.ok ⟨200⟩, Except.ok (), Except.ok (),
       Except.ok ⟨6, none, none, 9⟩, Except.ok ⟨200⟩, Except.ok ()⟩
      ⟨⟨⟨6, some "nodeD", none, 5⟩⟩, "mid6", 0, none⟩ =
      ([Op.sendNotification "nodeD"],
       Except.ok (make_delivered_response ⟨"m0", "http://ep"⟩
        ⟨⟨⟨6, some "nodeD", none, 5⟩⟩, "mid6", 0, none⟩)) := by
  have h := direct_delivery_success ⟨"m0", "http://ep"⟩
    ⟨Except.ok ⟨200⟩, Except.ok (), Except.ok (),
     Except.ok ⟨6, none, none, 9⟩, Except.ok ⟨200⟩, Except.ok ()⟩
    ⟨⟨⟨6, some "nodeD", none, 5⟩⟩, "mid6", 0, none⟩ "nodeD" ⟨200⟩ rfl rfl rfl
  exact h.1

/-! ## Helper lemmas about the header validators -/

theorem assert_base64_ok_iff (name : String) (header : Option String) (key : String) :
    assert_base64_item_exists name header key = Except.ok () ↔
      (match header with
       | some s => contains_valid_key s key
       | none => false) = true := by
  cases header with
  | none => simp [assert_base64_item_exists]
  | some s =>
    simp only [assert_base64_item_exists, contains_valid_key]
    cases hp : CryptoKeyHeader.parse s with
    | none => simp [hp]
    | some d =>
      cases hg : get_by_key d key with
      | none => simp [hp, hg]
      | some v =>
        by_cases hv : valid_base64_url v = true
        · simp [hp, hg, hv]
        · simp only [Bool.not_eq_true] at hv
          simp [hp, hg, hv]

theorem validate_04_ok_iff (h : NotificationHeaders) :
    h.validate_encryption_04_rules = Except.ok () ↔
      (assert_base64_item_exists "Encryption" h.encryption "salt" = Except.ok () ∧
       h.encryption_key = none ∧
       (∀ c, h.crypto_key = some c →
         assert_base64_item_exists "Crypto-Key" (some c) "dh" = Except.ok ())) := by
  unfold NotificationHeaders.validate_encryption_04_rules
  cases hA : assert_base64_item_exists "Encryption" h.encryption "salt" with
  | error eA => simp [hA]
  | ok u =>
    cases u
    cases hek : h.encryption_key with
    | some k => simp [hek]
    | none =>
      cases hck : h.crypto_key with
      | none => simp [hck]
      | some c =>
        cases hC : assert_base64_item_exists "Crypto-Key" (some c) "dh" with
        | error eC => simp [hck, hC]
        | ok u2 => cases u2; simp [hck, hC]

theorem assertNotExists_error_shape (name : String) (header : Option String)
    (key : String) (e : ApiErrorKind)
    (h : assertNotExists name header key = Except.error e) :
    ∃ m, e = ApiErrorKind.invalidEncryption m := by
  cases header with
  | none => simp [assertNotExists] at h
  | some s =>
    simp only [assertNotExists] at h
    cases hp : CryptoKeyHeader.parse s with
    | none =>
      rw [hp] at h
      simp at h
      exact ⟨_, h.symm⟩
    | some d =>
      rw [hp] at h
      by_cases hk : (get_by_key d key).isSome = true
      · simp [hk] at h
        exact ⟨_, h.symm⟩
      · simp only [Bool.not_eq_true] at hk
        simp [hk] at h

theorem assertNotExists_error_of_contains (name s key : String)
    (hck : contains_key s key = true) :
    ∃ m, assertNotExists name (some s) key =
      Except.error (ApiErrorKind.invalidEncryption m) := by
  unfold contains_key at hck
  cases hp : CryptoKeyHeader.parse s with
  | none => rw [hp] at hck; simp at hck
  | some d =>
    rw [hp] at hck
    have hck2 : (get_by_key d key).isSome = true := hck
    refine ⟨"Do not include " ++ key ++ " header in " ++ name ++ " header", ?_⟩
    simp [assertNotExists, hp, hck2]

theorem assertNotExists_none_ok (name key : String) :
    assertNotExists name none key = Except.ok () := rfl

/-! ## Claims about the header validator -/

/-- C6: a TTL header that does not parse as an integer is treated as an
absent TTL without error; a parsed negative value fails validation with
code "114"; a parsed value between 0 and `MAX_TTL` is kept as is; a parsed
value above `MAX_TTL` is silently clamped to `MAX_TTL`. -/
theorem ttl_header_validation (s : String) :
    (parse_i64 s = none →
      NotificationHeaders.from_request (ttl_request s) false =
        Except.ok { ttl := none, topic := none, content_encoding := none,
                    encryption := none, encryption_key := none, crypto_key := none }) ∧
    (∀ t : Int, parse_i64 s = some t →
      (t < 0 →
        NotificationHeaders.from_request (ttl_request s) false =
          Except.error (ApiErrorKind.validation
            [{ field := "ttl", code := "114",
               message := "TTL must be greater than 0" }])) ∧
      (0 ≤ t → t ≤ MAX_TTL →
        NotificationHeaders.from_request (ttl_request s) false =
          Except.ok { ttl := some t, topic := none, content_encoding := none,
                      encryption := none, encryption_key := none, crypto_key := none }) ∧
      (MAX_TTL < t →
        NotificationHeaders.from_request (ttl_request s) false =
          Except.ok { ttl := some MAX_TTL, topic := none, content_encoding := none,
                      encryption := none, encryption_key := none,
                      crypto_key := none })) := by
  constructor
  · intro hp
    simp [NotificationHeaders.from_request, ttl_request, hp,
      NotificationHeaders.validate]
  · intro t hp
    refine ⟨?_, ?_, ?_⟩
    · intro hneg
      have hmin : min t MAX_TTL = t := min_eq_left (by unfold MAX_TTL; omega)
      simp [NotificationHeaders.from_request, ttl_request, hp, hmin,
        NotificationHeaders.validate, hneg]
    · intro h0 hle
      have hmin : min t MAX_TTL = t := min_eq_left hle
      have hnn : ¬ t < 0 := not_lt.mpr h0
      simp [NotificationHeaders.from_request, ttl_request, hp, hmin,
        NotificationHeaders.validate, hnn]
    · intro hgt
      have hmin : min t MAX_TTL = MAX_TTL := min_eq_right (le_of_lt hgt)
      have hnn : ¬ MAX_TTL < 0 := by unfold MAX_TTL; omega
      simp [NotificationHeaders.from_request, ttl_request, hp, hmin,
        NotificationHeaders.validate, hnn]

/-- Witness for C6 at the concrete input "-1": validation fails with the
code-"114" field error. -/
theorem ttl_header_validation_witness :
    NotificationHeaders.from_request (ttl_request "-1") false =
      Except.error (ApiErrorKind.validation
        [{ field := "ttl", code := "114",
           message := "TTL must be greater than 0" }]) := by
  have h := ttl_header_validation "-1"
  exact (h.2 (-1) (by decide)).1 (by decide)

/-- C7 counterexample: the empty topic string has length 0 ≤ 32 and
contains no character outside the allowed alphabet (so the claim's
rejection condition is false), yet the code rejects it with a "113"
validation error, because the regex demands at least one alphabet
character before the padding. -/
theorem topic_claim_counterexample :
    spec_topic_reject "" = false ∧
    NotificationHeaders.from_request (topic_request "") false =
      Except.error (ApiErrorKind.validation
        [{ field := "topic", code := "113",
           message := "Topic must be URL and Filename safe Base64 alphabet" }]) :=
  ⟨rfl, rfl⟩

/-- C7 (amended): topic validation fails with code-"113" errors exactly
when the topic exceeds 32 characters or does not match
`^[0-9A-Za-z\-_]+=*$` — the regex additionally rejects any topic without a
leading base64 character, such as the empty string; otherwise the topic is
accepted unchanged. -/
theorem topic_header_validation (s : String) :
    ((32 < s.length ∨ valid_base64_url s = false) →
      ∃ errs, NotificationHeaders.from_request (topic_request s) false =
          Except.error (ApiErrorKind.validation errs) ∧
        errs ≠ [] ∧
        errs.all (fun e => e.field == "topic" && e.code == "113") = true) ∧
    (¬ (32 < s.length ∨ valid_base64_url s = false) →
      NotificationHeaders.from_request (topic_request s) false =
        Except.ok { ttl := none, topic := some s, content_encoding := none,
                    encryption := none, encryption_key := none,
                    crypto_key := none }) := by
  constructor
  · intro hbad
    rcases Bool.eq_false_or_eq_true (valid_base64_url s) with h2 | h2
    · by_cases h1 : 32 < s.length
      · refine ⟨[⟨"topic", "113", "Topic must be no greater than 32 characters"⟩],
          ?_, by decide, by decide⟩
        simp [NotificationHeaders.from_request, topic_request,
          NotificationHeaders.validate, h1, h2]
      · rcases hbad with hb | hb
        · exact absurd hb h1
        · rw [h2] at hb
          simp at hb
    · by_cases h1 : 32 < s.length
      · refine ⟨[⟨"topic", "113", "Topic must be no greater than 32 characters"⟩,
          ⟨"topic", "113", "Topic must be URL and Filename safe Base64 alphabet"⟩],
          ?_, by decide, by decide⟩
        simp [NotificationHeaders.from_request, topic_request,
          NotificationHeaders.validate, h1, h2]
      · refine ⟨[⟨"topic", "113", "Topic must be URL and Filename safe Base64 alphabet"⟩],
          ?_, by decide, by decide⟩
        simp [NotificationHeaders.from_request, topic_request,
          NotificationHeaders.validate, h1, h2]
  · intro hgood
    push_neg at hgood
    obtain ⟨h1, h2⟩ := hgood
    have h1' : ¬ 32 < s.length := not_lt.mpr h1
    have h2' : valid_base64_url s = true := by
      cases hb : valid_base64_url s
      · exact absurd hb h2
      · rfl
    simp [NotificationHeaders.from_request, topic_request,
      NotificationHeaders.validate, h1', h2']

/-- Witness for C7 at a concrete accepted topic. -/
theorem topic_header_validation_witness :
    NotificationHeaders.from_request (topic_request "ok-topic") false =
      Except.ok { ttl := none, topic := some "ok-topic", content_encoding := none,
                  encryption := none, encryption_key := none,
                  crypto_key := none } := by
  have h := topic_header_validation "ok-topic"
  exact h.2 (by decide)

/-- C8: with a payload body and Content-Encoding `aesgcm`, encryption
validation succeeds exactly when the `Encryption` header is present and
carries a valid `salt` key, the `Encryption-Key` header is absent entirely,
and `Crypto-Key`, if present, carries a valid `dh` key. -/
theorem aesgcm_encryption_validation (h : NotificationHeaders)
    (hce : h.content_encoding = some "aesgcm") :
    h.validate_encryption = Except.ok () ↔ spec_aesgcm_accepts h = true := by
  have hdis : h.validate_encryption = h.validate_encryption_04_rules := by
    simp [NotificationHeaders.validate_encryption, hce]
  rw [hdis, validate_04_ok_iff]
  rw [assert_base64_ok_iff]
  unfold spec_aesgcm_accepts
  cases hE : h.encryption <;> cases hek : h.encryption_key <;>
    cases hck : h.crypto_key <;>
      simp [assert_base64_ok_iff, Bool.and_eq_true]

/-- Witness for C8 at a concrete accepted header set (the valid_04 test of
notification_headers.rs). -/
theorem aesgcm_encryption_validation_witness :
    NotificationHeaders.validate_encryption
      { ttl := none, topic := none, content_encoding := some "aesgcm",
        encryption := some "salt=foo", encryption_key := none,
        crypto_key := some "dh=bar" } = Except.ok () := by
  have h := aesgcm_encryption_validation
    { ttl := none, topic := none, content_encoding := some "aesgcm",
      encryption := some "salt=foo", encryption_key := none,
      crypto_key := some "dh=bar" } rfl
  exact h.mpr (by decide)

/-- C9: with a payload body and Content-Encoding `aes128gcm`, validation
fails if the `Encryption` header is present and contains a `salt` key, or
if the `Crypto-Key` header is present and contains a `dh` key; complete
absence of both headers is accepted. -/
theorem aes128gcm_encryption_validation (h : NotificationHeaders)
    (hce : h.content_encoding = some "aes128gcm") :
    (∀ e, h.encryption = some e → contains_key e "salt" = true →
      ∃ m, h.validate_encryption = Except.error (ApiErrorKind.invalidEncryption m)) ∧
    (∀ c, h.crypto_key = some c → contains_key c "dh" = true →
      ∃ m, h.validate_encryption = Except.error (ApiErrorKind.invalidEncryption m)) ∧
    (h.encryption = none → h.crypto_key = none →
      h.validate_encryption = Except.ok ()) := by
  have hdis : h.validate_encryption = h.validate_encryption_06_rules := by
    simp [NotificationHeaders.validate_encryption, hce]
  rw [hdis]
  unfold NotificationHeaders.validate_encryption_06_rules
  refine ⟨?_, ?_, ?_⟩
  · intro e hE hck
    obtain ⟨m, hm⟩ := assertNotExists_error_of_contains "aes128gcm Encryption" e "salt" hck
    rw [hE, hm]
    exact ⟨m, rfl⟩
  · intro c hC hck
    cases hA : assertNotExists "aes128gcm Encryption" h.encryption "salt" with
    | error eA =>
      obtain ⟨m, hm⟩ := assertNotExists_error_shape _ _ _ _ hA
      exact ⟨m, by rw [hm]⟩
    | ok u =>
      cases u
      obtain ⟨m, hm⟩ := assertNotExists_error_of_contains "aes128gcm Crypto-Key" c "dh" hck
      rw [hC, hm]
      exact ⟨m, rfl⟩
  · intro hE hC
    rw [hE, hC]
    rfl

/-- Witness for C9 at a concrete header set with both headers absent. -/
theorem aes128gcm_encryption_validation_witness :
    NotificationHeaders.validate_encryption
      { ttl := none, topic := none, content_encoding := some "aes128gcm",
        encryption := none, encryption_key := none,
        crypto_key := none } = Except.ok () := by
  have h := aes128gcm_encryption_validation
    { ttl := none, topic := none, content_encoding := some "aes128gcm",
      encryption := none, encryption_key := none, crypto_key := none } rfl
  exact h.2.2 rfl rfl

end Autopush
